import Mathlib

/-!
Verification development for the taxify document segmentation and
extraction-orchestration pipeline.  Definitions are shallow embeddings of
the Python source under `taxifyl-staging/`; page text is modelled as a
`String`, Python `pat in text` as a character-list substring test, Python
floats as exact rationals (float rounding is abstracted: every numeric
literal in play is a short decimal and the code only compares, defaults and
negates them), and Python `None`-bearing JSON values as an explicit `JVal`
type.
-/

/- ### Python string primitives -/

/-- Python `pat in hay` on character lists: some suffix of `hay` starts with `pat`. -/
def hasSub (hay pat : List Char) : Bool :=
  if pat.isPrefixOf hay then true
  else
    match hay with
    | [] => false
    | _ :: t => hasSub t pat

/-- Python `pat in text` for strings. -/
def strHas (text pat : String) : Bool := hasSub text.data pat.data

/-- Python `str.lower` (over the ASCII vocabulary the source compares). -/
def lowerChars (s : List Char) : List Char := s.map Char.toLower

/-- Python `str.strip()`: drop whitespace from both ends. -/
def stripChars (s : List Char) : List Char :=
  ((s.dropWhile Char.isWhitespace).reverse.dropWhile Char.isWhitespace).reverse

/-- Python `str.replace(c, rep)` for a one-character pattern. -/
def replChar (s : List Char) (c : Char) (rep : List Char) : List Char :=
  (s.map (fun x => if x = c then rep else [x])).flatten

/-- Python `str.replace(c, "")` for a one-character pattern. -/
def dropChar (s : List Char) (c : Char) : List Char := replChar s c []

/-- Value of a digit run, base 10. -/
def digitsToNat (l : List Char) : Nat := l.foldl (fun a c => a * 10 + (c.toNat - 48)) 0

/-- Modelled from Python's builtin `float(str)`: optional sign, then a decimal
number with at most one dot (exponents, `inf`/`nan` and underscores do not
occur in the inputs this development evaluates).  Rounding to binary floating
point is abstracted: the result is the exact decimal rational. -/
def parseFloat (s : List Char) : Option ℚ :=
  let t := stripChars s
  let sgn : ℚ := match t with
    | '-' :: _ => -1
    | _ => 1
  let u : List Char := match t with
    | '-' :: r => r
    | '+' :: r => r
    | _ => t
  match u.splitOn '.' with
  | [ip] =>
    if ip ≠ [] ∧ ip.all Char.isDigit then some (sgn * digitsToNat ip) else none
  | [ip, fp] =>
    if (ip ++ fp) ≠ [] ∧ (ip ++ fp).all Char.isDigit then
      some (sgn * ((digitsToNat ip : ℚ) + (digitsToNat fp : ℚ) / (10 ^ fp.length)))
    else none
  | _ => none

/- ### Page classification (forms/form_k1, form_k3, form_8805 extractors) -/

/-- `MultiPageK1Processor.detect_k1_pages` page test: the page text must hold
both halves of the K-1 form header and both halves of the Part I header. -/
def is_k1_start_page (text : String) : Bool :=
  let has_schedule_k1 := strHas text "Schedule K-1"
  let has_form_1065 := strHas text "(Form 1065)"
  let has_k1_header := has_schedule_k1 && has_form_1065
  let has_part_i := strHas text "Part I" && strHas text "Information About the Partnership"
  has_k1_header && has_part_i

/-- `MultiPageK3Processor.detect_k3_page_ranges` page test: "Schedule K-3"
present and "Schedule K-1" absent. -/
def is_k3_page (text : String) : Bool :=
  let has_k3 := strHas text "Schedule K-3"
  let has_k1 := strHas text "Schedule K-1"
  has_k3 && !has_k1

/-- `MultiPage8805Processor.detect_8805_page_ranges` page test, translated
clause by clause from the source. -/
def is_8805_page (text : String) : Bool :=
  let has_form_8805 := strHas text "Form 8805"
  let has_title := strHas text "Foreign Partner's Information Statement"
  let has_copy := (strHas text "Copy A" || strHas text "Copy B" ||
      strHas text "Copy C" || strHas text "Copy D") && strHas text "8805"
  let has_section_1446 := strHas text "Section 1446" && strHas text "Form 8805"
  let is_k1_8804 := strHas text "Schedule K-1" && strHas text "(Form 8804)"
  let is_main_8804 := strHas text "Form 8804" &&
      strHas text "Annual Return for Partnership Withholding Tax"
  let is_any_8804 := is_k1_8804 || is_main_8804 ||
      (strHas text "Form 8804" && strHas text "Schedule K-1")
  let is_k1 := strHas text "Schedule K-1" && strHas text "(Form 1065)"
  let is_k3 := strHas text "Schedule K-3"
  (has_form_8805 || has_title || has_section_1446 || has_copy) &&
    !is_any_8804 && !is_k1 && !is_k3

/-- Modelled from the spec (§4.1, *Form 8804* signature, positive part):
"(\"Form 8804\" without \"Schedule K-1\") OR (\"Schedule K-1\" AND
\"(Form 8804)\")".  Declared from the spec's words, to compare the spec's
"absence of any Form 8804 signature" exclusion claim against the code's
`is_8805_page` rule. -/
def spec_form_8804_signature (text : String) : Bool :=
  (strHas text "Form 8804" && !strHas text "Schedule K-1") ||
    (strHas text "Schedule K-1" && strHas text "(Form 8804)")

/-- `int(total_pages * pct / 100)`: for realistic page counts the Python
float expression equals exact rational division truncated, i.e. Nat division. -/
def max_scan_pages (total pct : Nat) : Nat := total * pct / 100

/-- `detect_k1_pages` with the default `max_scan_percentage=85.0` and
`max_k1_pages=None`: scan pages `0..max_page_to_scan-1` of the text layer,
collect 1-indexed matches in order. -/
def detect_k1_pages (texts : List String) : List Nat :=
  ((List.range (max_scan_pages texts.length 85)).filter
      (fun i => is_k1_start_page (texts.getD i ""))).map (· + 1)

/-- First pass of `detect_k3_page_ranges` with the default
`max_scan_percentage=100.0`: all matching 1-indexed pages in order. -/
def detect_k3_pages (texts : List String) : List Nat :=
  ((List.range (max_scan_pages texts.length 100)).filter
      (fun i => is_k3_page (texts.getD i ""))).map (· + 1)

/-- First pass of `detect_8805_page_ranges` with the default
`max_scan_percentage=100.0`. -/
def detect_8805_pages (texts : List String) : List Nat :=
  ((List.range (max_scan_pages texts.length 100)).filter
      (fun i => is_8805_page (texts.getD i ""))).map (· + 1)

/- ### Grouping consecutive pages into ranges (second pass, shared verbatim
by the K-3, 8805 and 8804 processors) -/

/-- Loop body: `for page in pages[1:]: if page == end + 1: end = page else:
ranges.append((start, end)); start = page; end = page`, then the final
`ranges.append((start, end))`. -/
def group_go (s e : Nat) : List Nat → List (Nat × Nat)
  | [] => [(s, e)]
  | p :: rest => if p = e + 1 then group_go s p rest else (s, e) :: group_go p p rest

/-- `group consecutive pages into ranges`: empty input gives no ranges,
otherwise the loop starts with `start = end = pages[0]`. -/
def group_consecutive (pages : List Nat) : List (Nat × Nat) :=
  match pages with
  | [] => []
  | p :: rest => group_go p p rest

/-- `detect_k3_page_ranges` end to end on the page texts. -/
def detect_k3_page_ranges (texts : List String) : List (Nat × Nat) :=
  group_consecutive (detect_k3_pages texts)

/-- `detect_8805_page_ranges` end to end on the page texts. -/
def detect_8805_page_ranges (texts : List String) : List (Nat × Nat) :=
  group_consecutive (detect_8805_pages texts)

/-- The pages a range `(s, e)` covers: `s, s+1, ..., e`. -/
def rangePages (r : Nat × Nat) : List Nat := List.range' r.1 (r.2 + 1 - r.1)

/-- The gap relation between consecutive emitted ranges: the next range
starts strictly after `end + 1` (maximality of each contiguous run). -/
def rangeGap (a b : Nat × Nat) : Prop := a.2 + 1 < b.1

/- ### Backend retry policy (api.py, get_pages and extract_form loops) -/

/-- `get_pages` retry test: `("503" in error_msg or "429" in error_msg)`. -/
def retryable_get_pages (e : String) : Bool := strHas e "503" || strHas e "429"

/-- `extract_form` retry test: `("503" in error_str or "429" in error_str or
"overloaded" in error_str.lower())`. -/
def retryable_extract_form (e : String) : Bool :=
  strHas e "503" || strHas e "429" || hasSub (lowerChars e.data) "overloaded".data

/-- One retry run: the sleeps issued (in order), the number of attempts made,
and the final outcome (`.error` models the re-raised exception). -/
structure RetryRun (α : Type) where
  sleeps : List Nat
  attemptsMade : Nat
  outcome : Except String α

/-- The `for attempt in range(max_retries)` loop with `retry_delay = 2`
doubling after each retryable failure; `res n` is attempt `n`'s outcome.
A retryable failure before the last attempt sleeps `delay` and continues;
anything else leaves the loop (success breaks, failure re-raises). -/
def retry_go (p : String → Bool) (res : Nat → Except String α) (maxR : Nat) :
    List Nat → Nat → List Nat → Nat → RetryRun α
  | [], _, sleeps, made => ⟨sleeps.reverse, made, .error "no response"⟩
  | attempt :: rest, delay, sleeps, made =>
    match res attempt with
    | .ok v => ⟨sleeps.reverse, made + 1, .ok v⟩
    | .error e =>
      if p e = true ∧ attempt < maxR - 1 then
        retry_go p res maxR rest (delay * 2) (delay :: sleeps) (made + 1)
      else ⟨sleeps.reverse, made + 1, .error e⟩

/-- A whole retried backend call: `max_retries` attempts at most, initial
delay 2. -/
def run_retry (p : String → Bool) (res : Nat → Except String α) (maxR : Nat) : RetryRun α :=
  retry_go p res maxR (List.range maxR) 2 [] 0

/- ### Batch chunking (api.py extract_form: MAX_PAGES_PER_BATCH = 10) -/

/-- `for chunk_idx in range(0, len(pages), MAX_PAGES_PER_BATCH): chunk =
pages[chunk_idx:chunk_idx + MAX_PAGES_PER_BATCH]`: the slice starting at
each multiple of 10 below `len(pages)` (there are `⌈len/10⌉` of them), each
capped at 10 elements. -/
def chunk_pages (l : List α) : List (List α) :=
  (List.range ((l.length + 9) / 10)).map (fun i => (l.drop (10 * i)).take 10)

/- ### JSON-ish values (model output fields) -/

/-- A JSON value as the normalizers see one: Python `None`, a string, a
number (int or float, as an exact rational), or a boolean. -/
inductive JVal where
  | null
  | str (s : String)
  | num (q : ℚ)
  | bool (b : Bool)
deriving DecidableEq

/-- The `find_value` usability test `v is not None and v != "" and v != "N/A"`
(numbers and booleans never equal a Python string). -/
def usableVal : JVal → Bool
  | .null => false
  | .str s => !(s = "" || s = "N/A")
  | _ => true

/-- The K-3 merge emptiness test `val is None or val == 0 or val == 0.00 or
val == ""` (Python `False == 0`, so `False` is empty too). -/
def isEmptyMerge : JVal → Bool
  | .null => true
  | .num q => q = 0
  | .str s => s = ""
  | .bool b => !b

/-- Python truthiness of a JSON value. -/
def truthyVal : JVal → Bool
  | .null => false
  | .str s => !(s = "")
  | .num q => !(q = 0)
  | .bool b => b

/-- Python `str(v)` for a non-string value; the claims under proof only
evaluate it on strings and falsy values, where the branch using it is not
taken (Python float formatting is not reproduced digit for digit). -/
def pyStr : JVal → String
  | .null => "None"
  | .str s => s
  | .num q => toString q
  | .bool b => if b then "True" else "False"

/- ### transform_to_w2_structure (app.py 356-516) over a flattened input -/

/-- `find_value(keys, default)`: for each alias key in order, scan the
flattened dict in insertion order and return the first usable value whose
(lowercased) key contains the (lowercased) alias as a substring. -/
def find_value (flat : List (String × JVal)) : List String → JVal → JVal
  | [], dflt => dflt
  | key :: rest, dflt =>
    match flat.find? (fun kv =>
        hasSub (lowerChars kv.1.data) (lowerChars key.data) && usableVal kv.2) with
    | some kv => kv.2
    | none => find_value flat rest dflt

/-- `find_number(keys)` (default 0.00): numeric coercion strips `$` and
commas then parses; a Python bool is an int (`float(True) = 1.0`); anything
unparsable falls back to 0.00. -/
def find_number (flat : List (String × JVal)) (keys : List String) : ℚ :=
  match find_value flat keys (.num 0) with
  | .null => 0
  | .num q => q
  | .bool b => if b then 1 else 0
  | .str s =>
    match parseFloat (stripChars (dropChar (dropChar s.data '$') ',')) with
    | some q => q
    | none => 0

/-- `find_bool(keys)` (default False): strings coerce via
`val.lower() in ["true", "yes", "1", "x", "checked"]`. -/
def find_bool (flat : List (String × JVal)) (keys : List String) : Bool :=
  match find_value flat keys (.bool false) with
  | .bool b => b
  | .str s =>
    [ "true".data, "yes".data, "1".data, "x".data, "checked".data
      ].contains (lowerChars s.data)
  | _ => false

/-- The name/address halves of `find_combined_value`: strings are stripped,
falsy non-strings become `""`, truthy non-strings go through `str()`. -/
def combinedPart (v : JVal) : String :=
  match v with
  | .str s => String.mk (stripChars s.data)
  | v => if truthyVal v = true then pyStr v else ""

/-- `find_combined_value(name_keys, address_keys, default, separator)`. -/
def find_combined_value (flat : List (String × JVal)) (nameKeys addrKeys : List String)
    (dflt : JVal) (sep : String) : JVal :=
  let name := combinedPart (find_value flat nameKeys (.str ""))
  let addr := combinedPart (find_value flat addrKeys (.str ""))
  if name ≠ "" ∧ addr ≠ "" then .str (name ++ sep ++ addr)
  else if name ≠ "" then .str name
  else if addr ≠ "" then .str addr
  else dflt

/-- One output field of the hardcoded W-2 structure: its plane, box code,
label and value. -/
structure WField where
  plane : String
  code : String
  label : JVal
  value : JVal
deriving DecidableEq

/-- `transform_to_w2_structure` over the flattened input: the hardcoded W-2
output structure, one `WField` per box of each plane, each value produced by
the exact alias list and helper of the source.  (The source nests the
supplemental plane in an extra `boxes` wrapper and adds a constant form
header; both carry no field data and are flattened away here.) -/
def transform_to_w2_structure (flat : List (String × JVal)) : List WField :=
  [ ⟨"identification_plane", "a", .str "Employee's SSA number",
      find_value flat ["ssn", "ssa", "employee_ssn", "social_security", "box_a"] (.str "")⟩
  , ⟨"identification_plane", "b", .str "Employer's FED ID number",
      find_value flat ["ein", "fed_id", "employer_ein", "employer_fed", "box_b"] (.str "")⟩
  , ⟨"identification_plane", "c", .str "Employer's name and address",
      find_combined_value flat ["employer_name"]
        ["employer_address", "employer_street", "employer_city"] (.str "") "\n"⟩
  , ⟨"identification_plane", "d", .str "Control number",
      find_value flat ["control", "control_number", "box_d"] (.str "")⟩
  , ⟨"identification_plane", "dept", .str "Department",
      find_value flat ["dept", "department", "dept_code"] (.str "")⟩
  , ⟨"identification_plane", "e/f", .str "Employee's name and address",
      find_combined_value flat ["employee_name"]
        ["employee_address", "employee_street", "employee_city"] (.str "") "\n"⟩
  , ⟨"federal_tax_plane", "1", .str "Wages, tips, other comp.",
      .num (find_number flat ["box_1", "box1", "wages", "wages_tips"])⟩
  , ⟨"federal_tax_plane", "2", .str "Federal income tax withheld",
      .num (find_number flat ["box_2", "box2", "federal_income_tax", "federal_tax_withheld"])⟩
  , ⟨"federal_tax_plane", "3", .str "Social security wages",
      .num (find_number flat ["box_3", "box3", "social_security_wages"])⟩
  , ⟨"federal_tax_plane", "4", .str "Social security tax withheld",
      .num (find_number flat ["box_4", "box4", "social_security_tax"])⟩
  , ⟨"federal_tax_plane", "5", .str "Medicare wages and tips",
      .num (find_number flat ["box_5", "box5", "medicare_wages"])⟩
  , ⟨"federal_tax_plane", "6", .str "Medicare tax withheld",
      .num (find_number flat ["box_6", "box6", "medicare_tax"])⟩
  , ⟨"federal_tax_plane", "7", .str "Social security tips",
      .num (find_number flat ["box_7", "box7", "social_security_tips"])⟩
  , ⟨"federal_tax_plane", "8", .str "Allocated tips",
      .num (find_number flat ["box_8", "box8", "allocated_tips"])⟩
  , ⟨"federal_tax_plane", "9", .str "Verification code",
      find_value flat ["box_9", "box9", "verification_code", "verification"] (.str "")⟩
  , ⟨"federal_tax_plane", "10", .str "Dependent care benefits",
      .num (find_number flat ["box_10", "box10", "dependent_care"])⟩
  , ⟨"federal_tax_plane", "11", .str "Nonqualified plans",
      .num (find_number flat ["box_11", "box11", "nonqualified"])⟩
  , ⟨"supplemental_plane", "12a", find_value flat ["box_12a_code", "12a_code"] (.str ""),
      .num (find_number flat ["box_12a_amount", "12a_amount", "box_12a"])⟩
  , ⟨"supplemental_plane", "12b", find_value flat ["box_12b_code", "12b_code"] (.str ""),
      .num (find_number flat ["box_12b_amount", "12b_amount", "box_12b"])⟩
  , ⟨"supplemental_plane", "12c", find_value flat ["box_12c_code", "12c_code"] (.str ""),
      .num (find_number flat ["box_12c_amount", "12c_amount", "box_12c"])⟩
  , ⟨"supplemental_plane", "12d", find_value flat ["box_12d_code", "12d_code"] (.str ""),
      .num (find_number flat ["box_12d_amount", "12d_amount", "box_12d"])⟩
  , ⟨"supplemental_plane", "13", .str "Statutory employee",
      .bool (find_bool flat
        ["box_13_statutory", "box_13_statutory_employee", "statutory_employee", "statutory"])⟩
  , ⟨"supplemental_plane", "13b", .str "Retirement plan",
      .bool (find_bool flat
        ["box_13_retirement", "box_13_retirement_plan", "retirement_plan", "retirement"])⟩
  , ⟨"supplemental_plane", "13c", .str "Third-party sick pay",
      .bool (find_bool flat
        ["box_13_sick_pay", "box_13_third_party_sick_pay", "third_party_sick_pay", "sick_pay"])⟩
  , ⟨"supplemental_plane", "14", .str "Other",
      find_value flat ["box_14", "box_14_other", "other"] .null⟩
  , ⟨"state_local_plane", "15", .str "State / Employer ID",
      find_combined_value flat ["box_15_state", "state"]
        ["box_15_state_id", "state_id", "employer_state_id"] .null " "⟩
  , ⟨"state_local_plane", "16", .str "State wages, tips, etc.",
      .num (find_number flat ["box_16", "state_wages"])⟩
  , ⟨"state_local_plane", "17", .str "State income tax",
      .num (find_number flat ["box_17", "state_income_tax", "state_tax"])⟩
  , ⟨"state_local_plane", "18", .str "Local wages, tips, etc.",
      .num (find_number flat ["box_18", "local_wages"])⟩
  , ⟨"state_local_plane", "19", .str "Local income tax",
      .num (find_number flat ["box_19", "local_income_tax", "local_tax"])⟩
  , ⟨"state_local_plane", "20", .str "Locality name",
      find_value flat ["box_20", "locality", "locality_name"] .null⟩
  , ⟨"state_local_plane", "15b", .str "State / Employer ID (2)",
      find_combined_value flat ["box_15b_state"] ["box_15b_state_id"] .null " "⟩
  , ⟨"state_local_plane", "16b", .str "State wages (2)",
      .num (find_number flat ["box_16b"])⟩
  , ⟨"state_local_plane", "17b", .str "State income tax (2)",
      .num (find_number flat ["box_17b"])⟩
  , ⟨"state_local_plane", "18b", .str "Local wages (2)",
      .num (find_number flat ["box_18b"])⟩
  , ⟨"state_local_plane", "19b", .str "Local income tax (2)",
      .num (find_number flat ["box_19b"])⟩
  , ⟨"state_local_plane", "20b", .str "Locality name (2)",
      find_value flat ["box_20b"] .null⟩
  , ⟨"additional_data_plane", "employer_use", .str "Employer Use Only",
      find_value flat ["employer_use_only", "employer_use", "for_employer_use"] (.str "")⟩
  , ⟨"additional_data_plane", "other", .str "Other Data",
      find_value flat ["other_data", "other", "additional_info"] (.str "")⟩
  ]

/-- The canonical W-2 box codes, in output order. -/
def w2_codes : List String :=
  [ "a", "b", "c", "d", "dept", "e/f"
  , "1", "2", "3", "4", "5", "6", "7", "8", "9", "10", "11"
  , "12a", "12b", "12c", "12d", "13", "13b", "13c", "14"
  , "15", "16", "17", "18", "19", "20", "15b", "16b", "17b", "18b", "19b", "20b"
  , "employer_use", "other" ]

/-- The default each W-2 box carries when nothing in the input matches any
of its aliases (as the code computes them). -/
def w2_defaults : List (String × JVal) :=
  [ ("a", .str ""), ("b", .str ""), ("c", .str ""), ("d", .str "")
  , ("dept", .str ""), ("e/f", .str "")
  , ("1", .num 0), ("2", .num 0), ("3", .num 0), ("4", .num 0), ("5", .num 0)
  , ("6", .num 0), ("7", .num 0), ("8", .num 0), ("9", .str "")
  , ("10", .num 0), ("11", .num 0)
  , ("12a", .num 0), ("12b", .num 0), ("12c", .num 0), ("12d", .num 0)
  , ("13", .bool false), ("13b", .bool false), ("13c", .bool false), ("14", .null)
  , ("15", .null), ("16", .num 0), ("17", .num 0), ("18", .num 0), ("19", .num 0)
  , ("20", .null), ("15b", .null), ("16b", .num 0), ("17b", .num 0)
  , ("18b", .num 0), ("19b", .num 0), ("20b", .null)
  , ("employer_use", .str ""), ("other", .str "") ]

/- ### transform_to_k1_structure cleaning helpers (app.py 1054-1079) -/

/-- `clean_number(val, default=0.00)`: strips `$` and commas, rewrites `(` to
`-` and drops `)` (parenthesized negatives), then parses; a Python bool is an
int. -/
def clean_number (v : JVal) (dflt : ℚ) : ℚ :=
  match v with
  | .null => dflt
  | .num q => q
  | .bool b => if b then 1 else 0
  | .str s =>
    match parseFloat (stripChars
        (dropChar (replChar (dropChar (dropChar s.data '$') ',') '(' ['-']) ')')) with
    | some q => q
    | none => dflt

/-- `clean_bool(val)`. -/
def clean_bool (v : JVal) : Bool :=
  match v with
  | .bool b => b
  | .str s =>
    [ "true".data, "yes".data, "1".data, "x".data, "checked".data
      ].contains (lowerChars s.data)
  | _ => false

/- ### K-3 multi-page merge (forms/form_k3/extractor.py, batch_extract) -/

/-- One `{"code": ..., "value": ...}` element of an item's `data` list;
`code` is `none` when the key is absent (`d.get("code")`). -/
structure MergeEntry where
  code : Option String
  value : JVal
deriving DecidableEq

/-- One item of a part list.  `data?` is `none` when the item has no
`"data"` key; the other keys of the Python dict travel with the item but are
never read by the merge, so they are not modelled. -/
structure MergeItem where
  data? : Option (List MergeEntry)
deriving DecidableEq

/-- All data entries of a list of items, in scan order (an item without a
`data` key contributes nothing). -/
def entriesOf (items : List MergeItem) : List MergeEntry :=
  (items.map (fun it => it.data?.getD [])).flatten

/-- `existing_codes`: every code of every data entry already collected. -/
def codesOfItems (items : List MergeItem) : List (Option String) :=
  (entriesOf items).map (·.code)

/-- The `Find and update` inner loops: give value `v` to every already
collected entry that has code `c` and an empty/zero/null value. -/
def updateIfEmpty (c : Option String) (v : JVal) (items : List MergeItem) : List MergeItem :=
  items.map (fun it =>
    match it.data? with
    | none => it
    | some ds => ⟨some (ds.map (fun ed =>
        if ed.code = c ∧ isEmptyMerge ed.value = true then ⟨ed.code, v⟩ else ed))⟩)

/-- The `for d in item["data"]` loop for one incoming item: a new code
appends the whole item (adding only that code) and stops; a known code with
a non-empty value updates the empty occurrences and stops; a known code with
an empty value moves on to the item's next entry. -/
def processEntries (item : MergeItem) :
    List MergeEntry → List MergeItem → List (Option String) →
    List MergeItem × List (Option String)
  | [], acc, codes => (acc, codes)
  | d :: rest, acc, codes =>
    if d.code ∈ codes then
      if isEmptyMerge d.value = true then processEntries item rest acc codes
      else (updateIfEmpty d.code d.value acc, codes)
    else (acc ++ [item], d.code :: codes)

/-- `for item in part_items` step, guarded by `if "data" in item`. -/
def mergeItemsStep (st : List MergeItem × List (Option String)) (it : MergeItem) :
    List MergeItem × List (Option String) :=
  match it.data? with
  | none => st
  | some ds => processEntries it ds st.1 st.2

/-- Merging one page's items for one part key into the collected items:
`existing_codes` is recomputed from the collected items, then the page's
items are processed in order. -/
def mergePage (acc : List MergeItem) (items : List MergeItem) : List MergeItem :=
  (items.foldl mergeItemsStep (acc, codesOfItems acc)).1

/-- The 13 part keys of `all_part_data`, in source order. -/
def partKeys : List String :=
  [ "part_i_other_international", "part_ii_foreign_tax_credit"
  , "part_iii_form_1116_1118", "part_iv_section_250", "part_v_distributions"
  , "part_vi_inclusions", "part_vii_form_8621", "part_viii_foreign_corp_income"
  , "part_ix_form_8991_beat", "part_x_tax_liability", "part_xi_section_871m"
  , "part_xii_eci", "part_xiii_deemed_sale" ]

/-- `document_metadata` of a K-3 extraction result. -/
structure K3DocMeta where
  form_type : String
  tax_year : String
  partnership_name : String
  partnership_ein : String
deriving DecidableEq

/-- The default metadata fabricated when no page supplied any. -/
def defaultK3Meta : K3DocMeta :=
  ⟨"Schedule K-3 (Form 1065)", "2024", "", ""⟩

/-- What one successfully parsed page contributes: its per-part items
(`page_data`, after the `partner_records` unwrapping of the source), the
partner name it carries (`none` when absent), and the document metadata the
metadata branch would take from it (`none` when neither branch applies). -/
structure K3PageData where
  parts : String → List MergeItem
  partnerName : Option String
  docMeta : Option K3DocMeta

/-- The outcome of `self.extractor.extract` on one page as `batch_extract`
sees it: an exception (caught and skipped), a dict with an `"error"` key
(skipped), or usable data. -/
inductive K3PageOutcome where
  | exn (msg : String)
  | errorDict (msg : String)
  | ok (d : K3PageData)

/-- Whether a page contributed no data (exception or error dict). -/
def isFailedOutcome : K3PageOutcome → Bool
  | .exn _ => true
  | .errorDict _ => true
  | .ok _ => false

/-- The pages whose extraction produced usable data, in order. -/
def dataPages (pages : List (Nat × K3PageOutcome)) : List K3PageData :=
  pages.filterMap (fun pg =>
    match pg.2 with
    | .ok d => some d
    | _ => none)

/-- One page's contribution to `all_part_data`: each of the 13 part keys is
merged independently (`for part_key in all_part_data.keys()`). -/
def mergePartsStep (acc : String → List MergeItem) (pd : K3PageData) :
    String → List MergeItem :=
  fun k => if k ∈ partKeys then mergePage (acc k) (pd.parts k) else acc k

/-- `all_part_data` after every usable page was merged (each key starts as
an empty list). -/
def mergeAllParts (pds : List K3PageData) : String → List MergeItem :=
  pds.foldl mergePartsStep (fun _ => [])

/-- `document_metadata` state: the first page contribution found is kept. -/
def foldDocMeta (pds : List K3PageData) : Option K3DocMeta :=
  pds.foldl (fun st d =>
    match st with
    | some m => some m
    | none => d.docMeta) none

/-- `partner_name` state: set while still falsy (`if not partner_name`). -/
def foldPartnerName (pds : List K3PageData) : String :=
  pds.foldl (fun st d => if st = "" then d.partnerName.getD st else st) ""

/-- The consolidated partner record `batch_extract` builds. -/
structure K3PartnerRecord where
  partner_name : String
  page_reference : String
  parts : String → List MergeItem

/-- The element of the result list `batch_extract` returns (debug fields
are not modelled). -/
structure K3Output where
  document_metadata : K3DocMeta
  partner_records : List K3PartnerRecord

/-- A pipeline result for a range: either an explicit error object
(`{"error": ...}`) or a list of consolidated records. -/
inductive PipeResult where
  | errorObj (msg : String)
  | records (l : List K3Output)

/-- Whether a result is the explicit error-object shape. -/
def isErrorObj : PipeResult → Bool
  | .errorObj _ => true
  | .records _ => false

/-- The records of a result (none for an error object). -/
def outRecords : PipeResult → List K3Output
  | .errorObj _ => []
  | .records l => l

/-- `first_page = page_images[0][0] if page_images else 1`. -/
def firstPageOf (pages : List (Nat × K3PageOutcome)) : Nat :=
  (pages.head?.map (·.1)).getD 1

/-- `last_page = page_images[-1][0] if page_images else 1`. -/
def lastPageOf (pages : List (Nat × K3PageOutcome)) : Nat :=
  ((pages.getLast?).map (·.1)).getD 1

/-- The fabricated partner name used when no page named the partner. -/
def fabricatedName (pages : List (Nat × K3PageOutcome)) : String :=
  "Partner (Pages " ++ toString (firstPageOf pages) ++ "-" ++
    toString (lastPageOf pages) ++ ")"

/-- `MultiPageK3Processor.batch_extract`: per-page failures are skipped
(`continue`), the usable pages' parts are merged, metadata defaults are
fabricated when absent, and the function always returns one consolidated
record for the range — never an error object.  (The source runs metadata,
partner-name and part merging in one pass over the pages; the three folds
here consume the same pages in the same order and are state-disjoint.) -/
def batch_extract (pages : List (Nat × K3PageOutcome)) : PipeResult :=
  let pds := dataPages pages
  let meta := (foldDocMeta pds).getD defaultK3Meta
  let pname := foldPartnerName pds
  let record : K3PartnerRecord :=
    ⟨ if pname = "" then fabricatedName pages else pname
    , toString (firstPageOf pages) ++ "-" ++ toString (lastPageOf pages)
    , mergeAllParts pds ⟩
  .records [⟨meta, [record]⟩]

/-- First value found for a code, scanning items then entries in order: how
a reader of the merged part list resolves a box code. -/
def lookupValue (items : List MergeItem) (c : Option String) : Option JVal :=
  ((entriesOf items).find? (fun d => d.code = c)).map (·.value)

/-- Every item carries exactly one data entry (the shape of the spec's merge
examples, one box code per item). -/
def singleEntryItems (items : List MergeItem) : Prop :=
  ∀ it ∈ items, ∃ e, it.data? = some [e]

/-- The values recorded for code `c` across a page sequence, in page order. -/
def valuesFor (c : Option String) (pages : List (List MergeItem)) : List JVal :=
  (((pages.map entriesOf).flatten.filter (fun d => d.code = c)).map (·.value))

/-- The spec's merge rule for one code: keep the first value seen, unless it
is empty/zero/null, in which case the first later non-empty value replaces
it. -/
def firstNonEmptyKept : List JVal → Option JVal
  | [] => none
  | v :: rest =>
    some (if isEmptyMerge v = true then (rest.find? (fun w => !isEmptyMerge w)).getD v else v)

/-- One observed value folding into the per-code merge state. -/
def keptStep (st : Option JVal) (v : JVal) : Option JVal :=
  match st with
  | none => some v
  | some w => some (if isEmptyMerge w = true ∧ isEmptyMerge v = false then v else w)

/-- The values recorded for code `c` in one item list, in scan order. -/
def valuesInItems (c : Option String) (items : List MergeItem) : List JVal :=
  ((entriesOf items).filter (fun d => d.code = c)).map (·.value)

/-!  ## Theorems -/

/-- C2: for every page text, the K-1 detector fires exactly when the text
contains "Schedule K-1", "(Form 1065)", "Part I" and "Information About the
Partnership", and the K-3 detector fires exactly when the text contains
"Schedule K-3" and does not contain "Schedule K-1". -/
theorem classify_k1_k3_signatures :
    (∀ t : String, is_k1_start_page t = true ↔
      (strHas t "Schedule K-1" = true ∧ strHas t "(Form 1065)" = true ∧
        strHas t "Part I" = true ∧
        strHas t "Information About the Partnership" = true)) ∧
    (∀ t : String, is_k3_page t = true ↔
      (strHas t "Schedule K-3" = true ∧ strHas t "Schedule K-1" = false)) := by
  constructor
  · intro t
    simp only [is_k1_start_page, Bool.and_eq_true, and_assoc]
  · intro t
    simp only [is_k3_page, Bool.and_eq_true, Bool.not_eq_true']

/-- C4 (counterexample): a page text that carries the spec's Form 8804
signature ("Form 8804" without "Schedule K-1") and is nevertheless
classified as Form 8805, because the code's exclusion patterns all need
"Schedule K-1" or the 8804 main title next to "Form 8804". -/
theorem form_8805_8804_counterexample :
    is_8805_page "Form 8805 and Form 8804" = true ∧
    spec_form_8804_signature "Form 8805 and Form 8804" = true := by
  exact ⟨by decide, by decide⟩

/-- C4 (amended): a page is classified Form 8805 exactly when one of the
four positive signatures holds and none of the code's three 8804
co-occurrence patterns, the K-1 (Form 1065) signature, or "Schedule K-3" is
present; "Form 8804" alone (no "Schedule K-1", no main-return title) does
not exclude. -/
theorem form_8805_rule_structure : ∀ t : String,
    is_8805_page t = true ↔
      ((strHas t "Form 8805" = true ∨
          strHas t "Foreign Partner's Information Statement" = true ∨
          (strHas t "Section 1446" = true ∧ strHas t "Form 8805" = true) ∨
          ((strHas t "Copy A" = true ∨ strHas t "Copy B" = true ∨
              strHas t "Copy C" = true ∨ strHas t "Copy D" = true) ∧
            strHas t "8805" = true)) ∧
        ¬(strHas t "Schedule K-1" = true ∧ strHas t "(Form 8804)" = true) ∧
        ¬(strHas t "Form 8804" = true ∧
            strHas t "Annual Return for Partnership Withholding Tax" = true) ∧
        ¬(strHas t "Form 8804" = true ∧ strHas t "Schedule K-1" = true) ∧
        ¬(strHas t "Schedule K-1" = true ∧ strHas t "(Form 1065)" = true) ∧
        strHas t "Schedule K-3" = false) := by
  intro t
  simp only [is_8805_page, Bool.and_eq_true, Bool.or_eq_true, Bool.not_eq_true',
    Bool.eq_false_iff, ne_eq, not_or, and_assoc, or_assoc]

/-- The first range the grouping loop emits starts at the current `start`. -/
theorem group_go_head : ∀ (rest : List Nat) (s e : Nat),
    ∃ e' tl, group_go s e rest = (s, e') :: tl := by
  intro rest
  induction rest with
  | nil => exact fun s e => ⟨e, [], rfl⟩
  | cons p rest ih =>
    intro s e
    by_cases h : p = e + 1
    · simpa [group_go, h] using ih s p
    · exact ⟨e, group_go p p rest, by simp [group_go, h]⟩

/-- Flattening the emitted ranges of the grouping loop recovers the current
run `s..e` followed by the remaining (strictly increasing) pages. -/
theorem group_go_flat : ∀ (rest : List Nat) (s e : Nat), s ≤ e →
    List.Chain' (· < ·) (e :: rest) →
    ((group_go s e rest).map rangePages).flatten = List.range' s (e + 1 - s) ++ rest := by
  intro rest
  induction rest with
  | nil =>
    intro s e _ _
    simp [group_go, rangePages]
  | cons p rest ih =>
    intro s e hse hch
    have hep : e < p := (List.chain'_cons.mp hch).1
    have hch' : List.Chain' (· < ·) (p :: rest) := (List.chain'_cons.mp hch).2
    by_cases h : p = e + 1
    · rw [show group_go s e (p :: rest) = group_go s p rest from by
        simp [group_go, h]]
      rw [ih s p (by omega) hch', h]
      have : List.range' s (e + 1 + 1 - s) = List.range' s (e + 1 - s) ++ [e + 1] := by
        have h1 : e + 1 + 1 - s = (e + 1 - s) + 1 := by omega
        rw [h1, List.range'_concat]
        simp only [one_mul]
        have h2 : s + (e + 1 - s) = e + 1 := by omega
        rw [h2]
      rw [this]
      simp
    · rw [show group_go s e (p :: rest) = (s, e) :: group_go p p rest from by
        simp [group_go, h]]
      rw [List.map_cons, List.flatten_cons, ih p p le_rfl hch']
      simp [rangePages]

/-- The emitted ranges are separated by genuine gaps and each is well
formed (`start ≤ end`). -/
theorem group_go_wf : ∀ (rest : List Nat) (s e : Nat), s ≤ e →
    List.Chain' (· < ·) (e :: rest) →
    List.Chain' rangeGap (group_go s e rest) ∧
      ∀ r ∈ group_go s e rest, r.1 ≤ r.2 := by
  intro rest
  induction rest with
  | nil =>
    intro s e hse _
    refine ⟨List.chain'_singleton _, ?_⟩
    intro r hr
    simp [group_go] at hr
    simp [hr, hse]
  | cons p rest ih =>
    intro s e hse hch
    have hep : e < p := (List.chain'_cons.mp hch).1
    have hch' : List.Chain' (· < ·) (p :: rest) := (List.chain'_cons.mp hch).2
    by_cases h : p = e + 1
    · rw [show group_go s e (p :: rest) = group_go s p rest from by simp [group_go, h]]
      exact ih s p (by omega) hch'
    · rw [show group_go s e (p :: rest) = (s, e) :: group_go p p rest from by
        simp [group_go, h]]
      obtain ⟨e', tl, heq⟩ := group_go_head rest p p
      have hihp := ih p p le_rfl hch'
      constructor
      · rw [heq]
        rw [heq] at hihp
        exact List.chain'_cons.mpr ⟨by simp [rangeGap]; omega, hihp.1⟩
      · intro r hr
        rcases List.mem_cons.mp hr with hr | hr
        · simp [hr, hse]
        · exact hihp.2 r hr

/-- C3: grouping strictly increasing classified page indices emits maximal
contiguous runs — flattening the ranges back to pages recovers the input in
document order, consecutive ranges are separated by a gap (so they are
non-overlapping and maximal), every range has `start ≤ end`, and
`[5, 6, 7, 9]` yields `[(5, 7), (9, 9)]`. -/
theorem detect_ranges_contiguous_runs :
    (∀ pages : List Nat, List.Chain' (· < ·) pages →
      ((group_consecutive pages).map rangePages).flatten = pages ∧
        List.Chain' rangeGap (group_consecutive pages) ∧
        ∀ r ∈ group_consecutive pages, r.1 ≤ r.2) ∧
    group_consecutive [5, 6, 7, 9] = [(5, 7), (9, 9)] := by
  constructor
  · intro pages hch
    cases pages with
    | nil => simp [group_consecutive]
    | cons p rest =>
      have h1 := group_go_flat rest p p le_rfl hch
      have h2 := group_go_wf rest p p le_rfl hch
      refine ⟨?_, h2.1, h2.2⟩
      rw [show group_consecutive (p :: rest) = group_go p p rest from rfl, h1]
      simp
  · decide

/-- C3 witness: the grouping theorem applied to the concrete page list
`[5, 6, 7, 9]`. -/
theorem detect_ranges_contiguous_runs_witness :
    ((group_consecutive [5, 6, 7, 9]).map rangePages).flatten = [5, 6, 7, 9] :=
  (detect_ranges_contiguous_runs.1 [5, 6, 7, 9] (by norm_num [List.chain'_cons])).1

/-- C5: with 3 attempts and initial delay 2, a retried backend call is fully
characterized: success on attempt 1 makes one attempt and no sleep; a
retryable failure sleeps 2 then retries; a second retryable failure sleeps 4
then makes the third and final attempt, whose outcome is returned as is (no
4th attempt, no 3rd sleep); a non-retryable failure is re-raised at once
with no further sleep.  The final conjuncts: both retry predicates fire only
on errors indicating 503, 429 or a provider "overloaded" status. -/
theorem retry_three_attempts :
    (∀ (α : Type) (p : String → Bool) (res : Nat → Except String α),
      run_retry p res 3 =
        match res 0 with
        | .ok v => ⟨[], 1, .ok v⟩
        | .error e0 =>
          if p e0 = true then
            match res 1 with
            | .ok v => ⟨[2], 2, .ok v⟩
            | .error e1 =>
              if p e1 = true then
                match res 2 with
                | .ok v => ⟨[2, 4], 3, .ok v⟩
                | .error e2 => ⟨[2, 4], 3, .error e2⟩
              else ⟨[2], 2, .error e1⟩
          else ⟨[], 1, .error e0⟩) ∧
    (∀ e, retryable_extract_form e = true →
      strHas e "503" = true ∨ strHas e "429" = true ∨
        hasSub (lowerChars e.data) "overloaded".data = true) ∧
    (∀ e, retryable_get_pages e = true →
      strHas e "503" = true ∨ strHas e "429" = true ∨
        hasSub (lowerChars e.data) "overloaded".data = true) := by
  refine ⟨?_, ?_, ?_⟩
  · intro α p res
    have hr : List.range 3 = [0, 1, 2] := rfl
    rw [run_retry, hr]
    cases h0 : res 0 with
    | ok v => simp [retry_go, h0]
    | error e0 =>
      by_cases hp0 : p e0 = true
      · cases h1 : res 1 with
        | ok v => simp [retry_go, h0, h1, hp0]
        | error e1 =>
          by_cases hp1 : p e1 = true
          · cases h2 : res 2 with
            | ok v => simp [retry_go, h0, h1, h2, hp0, hp1]
            | error e2 => simp [retry_go, h0, h1, h2, hp0, hp1]
          · simp [retry_go, h0, h1, hp0, hp1]
      · simp [retry_go, h0, hp0]
  · intro e h
    rcases Bool.or_eq_true .. |>.mp h with h | h
    · rcases Bool.or_eq_true .. |>.mp h with h | h
      · exact Or.inl h
      · exact Or.inr (Or.inl h)
    · exact Or.inr (Or.inr h)
  · intro e h
    rcases Bool.or_eq_true .. |>.mp h with h | h
    · exact Or.inl h
    · exact Or.inr (Or.inl h)

/-- C5 witness: the retry predicate of `extract_form` fired on a concrete
503 error message, which indeed names 503. -/
theorem retry_three_attempts_witness :
    strHas "HTTP 503 Service Unavailable" "503" = true ∨
      strHas "HTTP 503 Service Unavailable" "429" = true ∨
      hasSub (lowerChars "HTTP 503 Service Unavailable".data) "overloaded".data = true :=
  retry_three_attempts.2.1 "HTTP 503 Service Unavailable" (by decide)

/-- Peeling one chunk off the slice-based chunking. -/
theorem chunk_pages_eq (l : List α) :
    chunk_pages l = if l.length = 0 then [] else l.take 10 :: chunk_pages (l.drop 10) := by
  by_cases h : l.length = 0
  · simp [chunk_pages, h]
  · have hn : (l.length + 9) / 10 = ((l.drop 10).length + 9) / 10 + 1 := by
      simp only [List.length_drop]
      omega
    rw [if_neg h, chunk_pages, hn, List.range_succ_eq_map]
    simp only [List.map_cons, Nat.mul_zero, List.drop_zero, List.map_map, chunk_pages]
    refine congrArg _ ?_
    refine List.map_congr_left ?_
    intro i _
    simp only [Function.comp_apply, List.drop_drop]
    have : 10 * (i + 1) = 10 + 10 * i := by ring
    rw [this]

/-- Chunks concatenate back to the full page list. -/
theorem chunk_pages_flatten : ∀ (n : Nat) (l : List α), l.length ≤ n →
    (chunk_pages l).flatten = l := by
  intro n
  induction n with
  | zero =>
    intro l hl
    have : l = [] := List.length_eq_zero.mp (Nat.le_zero.mp hl)
    simp [this, chunk_pages]
  | succ n ih =>
    intro l hl
    rw [chunk_pages_eq]
    by_cases h : l.length = 0
    · simp [List.length_eq_zero.mp h]
    · rw [if_neg h, List.flatten_cons, ih (l.drop 10) (by simp [List.length_drop]; omega)]
      exact List.take_append_drop 10 l

/-- C9: chunking covers all requested pages in order and no chunk — hence no
single backend call's image list — exceeds 10 pages. -/
theorem batch_chunking_cap :
    (∀ (α : Type) (l : List α), (chunk_pages l).flatten = l) ∧
    (∀ (α : Type) (l : List α) (c : List α), c ∈ chunk_pages l → c.length ≤ 10) := by
  constructor
  · intro α l
    exact chunk_pages_flatten l.length l le_rfl
  · intro α l c hc
    obtain ⟨i, _, rfl⟩ := List.mem_map.mp hc
    simp [List.length_take]

/-- C9 witness: the chunking theorem applied to a 23-page request, whose
first chunk holds 10 pages. -/
theorem batch_chunking_cap_witness :
    ((List.range 23).take 10).length ≤ 10 :=
  batch_chunking_cap.2 Nat (List.range 23) ((List.range 23).take 10) (by decide)

/-- C10: K-1 detection with default parameters only scans the first
`⌊0.85 · page_count⌋` pages, so every page it returns is at most that bound
and any K-1 start page beyond it is never detected; K-3 and 8805 detection
scan every page by default. -/
theorem k1_scan_window :
    (∀ (texts : List String) (p : Nat), p ∈ detect_k1_pages texts →
      p ≤ texts.length * 85 / 100) ∧
    (∀ (texts : List String) (p : Nat), texts.length * 85 / 100 < p →
      p ∉ detect_k1_pages texts) ∧
    (∀ texts : List String, detect_k3_pages texts =
      ((List.range texts.length).filter (fun i => is_k3_page (texts.getD i ""))).map
        (· + 1)) ∧
    (∀ texts : List String, detect_8805_pages texts =
      ((List.range texts.length).filter (fun i => is_8805_page (texts.getD i ""))).map
        (· + 1)) := by
  have hbound : ∀ (texts : List String) (p : Nat), p ∈ detect_k1_pages texts →
      p ≤ texts.length * 85 / 100 := by
    intro texts p hp
    obtain ⟨i, hi, rfl⟩ := List.mem_map.mp hp
    have := List.mem_range.mp (List.mem_filter.mp hi).1
    simp only [max_scan_pages] at this
    omega
  refine ⟨hbound, ?_, ?_, ?_⟩
  · intro texts p hlt hp
    exact absurd (hbound texts p hp) (by omega)
  · intro texts
    simp [detect_k3_pages, max_scan_pages, Nat.mul_div_cancel]
  · intro texts
    simp [detect_8805_pages, max_scan_pages, Nat.mul_div_cancel]

/-- C10 witness: in a 3-page document whose pages 1 and 3 are K-1 start
pages, the scan window is `⌊3 · 0.85⌋ = 2` pages, page 1 is detected and
bounded by 2, and page 3 (in the final 15%) is reported undetectable. -/
theorem k1_scan_window_witness :
    (1 ≤ [ "Schedule K-1 (Form 1065) Part I Information About the Partnership", ""
         , "Schedule K-1 (Form 1065) Part I Information About the Partnership"
         ].length * 85 / 100) ∧
    3 ∉ detect_k1_pages
        [ "Schedule K-1 (Form 1065) Part I Information About the Partnership", ""
        , "Schedule K-1 (Form 1065) Part I Information About the Partnership" ] :=
  ⟨k1_scan_window.1 _ 1 (by decide), k1_scan_window.2.1 _ 3 (by decide)⟩

/-- `entriesOf` distributes over append. -/
theorem entriesOf_append (l₁ l₂ : List MergeItem) :
    entriesOf (l₁ ++ l₂) = entriesOf l₁ ++ entriesOf l₂ := by
  simp [entriesOf]

/-- The entries after `updateIfEmpty` are the old entries, each rewritten in
place (codes untouched, empty values with the right code replaced). -/
theorem entriesOf_update (c : Option String) (v : JVal) (items : List MergeItem) :
    entriesOf (updateIfEmpty c v items) =
      (entriesOf items).map (fun ed =>
        if ed.code = c ∧ isEmptyMerge ed.value = true then ⟨ed.code, v⟩ else ed) := by
  induction items with
  | nil => rfl
  | cons it rest ih =>
    cases hd : it.data? with
    | none =>
      simp [entriesOf, updateIfEmpty, hd] at ih ⊢
      simpa [entriesOf] using ih
    | some ds =>
      simp [entriesOf, updateIfEmpty, hd] at ih ⊢
      simpa [entriesOf] using ih

/-- `updateIfEmpty` does not change the collected codes. -/
theorem codesOfItems_update (c : Option String) (v : JVal) (items : List MergeItem) :
    codesOfItems (updateIfEmpty c v items) = codesOfItems items := by
  rw [codesOfItems, entriesOf_update, List.map_map, codesOfItems]
  refine List.map_congr_left ?_
  intro ed _
  by_cases h : ed.code = c ∧ isEmptyMerge ed.value = true <;> simp [h]

/-- A code is collected exactly when a lookup for it succeeds. -/
theorem mem_codes_iff_lookup (acc : List MergeItem) (c : Option String) :
    c ∈ codesOfItems acc ↔ lookupValue acc c ≠ none := by
  rw [codesOfItems, lookupValue, List.mem_map]
  constructor
  · rintro ⟨ed, hed, rfl⟩
    cases hf : (entriesOf acc).find? (fun d => d.code = ed.code) with
    | none =>
      have := List.find?_eq_none.mp hf ed hed
      simp at this
    | some w => simp [hf]
  · intro h
    cases hf : (entriesOf acc).find? (fun d => d.code = c) with
    | none => simp [hf] at h
    | some ed =>
      exact ⟨ed, List.mem_of_find?_eq_some hf, by simpa using List.find?_some hf⟩

/-- Looking a code up after appending a single-entry item: an existing
binding wins, otherwise the new entry is visible. -/
theorem lookupValue_append_single (acc : List MergeItem) (e : MergeEntry)
    (c : Option String) :
    lookupValue (acc ++ [⟨some [e]⟩]) c =
      match lookupValue acc c with
      | some w => some w
      | none => if e.code = c then some e.value else none := by
  have he : entriesOf [(⟨some [e]⟩ : MergeItem)] = [e] := rfl
  rw [lookupValue, entriesOf_append, List.find?_append, he]
  cases h : (entriesOf acc).find? (fun d => d.code = c) with
  | some w =>
    rw [lookupValue, h]
    simp
  | none =>
    rw [lookupValue, h]
    by_cases hc : e.code = c <;> simp [List.find?_cons, hc]

/-- Looking a code up after `updateIfEmpty`: the first binding of the code is
replaced by the incoming value exactly when it was empty and the codes
match. -/
theorem lookupValue_update (c : Option String) (v : JVal) (acc : List MergeItem)
    (c' : Option String) :
    lookupValue (updateIfEmpty c v acc) c' =
      (lookupValue acc c').map
        (fun w => if c' = c ∧ isEmptyMerge w = true then v else w) := by
  rw [lookupValue, lookupValue, entriesOf_update]
  rw [List.find?_map]
  have hp : ((fun d : MergeEntry => decide (d.code = c')) ∘ (fun ed : MergeEntry =>
      if ed.code = c ∧ isEmptyMerge ed.value = true then ⟨ed.code, v⟩ else ed)) =
      (fun d : MergeEntry => decide (d.code = c')) := by
    funext ed
    by_cases h : ed.code = c ∧ isEmptyMerge ed.value = true <;> simp [h]
  rw [hp]
  cases h : (entriesOf acc).find? (fun d => d.code = c') with
  | none => simp
  | some ed =>
    have hed : ed.code = c' := by simpa using List.find?_some h
    by_cases hcc : c' = c
    · subst hcc
      by_cases hv : isEmptyMerge ed.value = true <;> simp [hed, hv]
    · have hnc : ¬(ed.code = c ∧ isEmptyMerge ed.value = true) := by
        rw [hed]
        exact fun hx => hcc hx.1
      simp [hnc, hcc]

/-- Folding the per-code merge step from a bound state: the stored value
survives unless it is empty, in which case the first later non-empty value
replaces it. -/
theorem foldl_keptStep_some (l : List JVal) : ∀ w, l.foldl keptStep (some w) =
    some (if isEmptyMerge w = true then
      (l.find? (fun x => !isEmptyMerge x)).getD w else w) := by
  induction l with
  | nil =>
    intro w
    simp [ite_self]
  | cons v l ih =>
    intro w
    rw [List.foldl_cons]
    by_cases hw : isEmptyMerge w = true
    · by_cases hv : isEmptyMerge v = true
      · have hk : keptStep (some w) v = some w := by simp [keptStep, hv]
        rw [hk, ih w]
        simp [hw, List.find?_cons, hv]
      · have hk : keptStep (some w) v = some v := by simp [keptStep, hw, hv]
        rw [hk, ih v]
        simp [hw, hv, List.find?_cons]
    · have hk : keptStep (some w) v = some w := by simp [keptStep, hw]
      rw [hk, ih w]
      simp [hw]

/-- Folding the per-code merge step from the empty state realizes the
first-non-empty-wins rule. -/
theorem foldl_keptStep_none (l : List JVal) :
    l.foldl keptStep none = firstNonEmptyKept l := by
  cases l with
  | nil => rfl
  | cons v l =>
    rw [List.foldl_cons, show keptStep none v = some v from rfl, foldl_keptStep_some]
    rfl

/-- `all_part_data` is built key by key: at any part key, the whole-page
fold specializes to the per-key item fold. -/
theorem mergeAllParts_eq : ∀ (pds : List K3PageData) (acc : String → List MergeItem)
    (k : String), k ∈ partKeys →
    (pds.foldl mergePartsStep acc) k =
      (pds.map (fun d => d.parts k)).foldl mergePage (acc k) := by
  intro pds
  induction pds with
  | nil =>
    intro acc k _
    rfl
  | cons d rest ih =>
    intro acc k hk
    rw [List.foldl_cons, ih (mergePartsStep acc d) k hk, List.map_cons, List.foldl_cons]
    have : mergePartsStep acc d k = mergePage (acc k) (d.parts k) := by
      simp [mergePartsStep, hk]
    rw [this]

/-- The page-sequence values for a code are the per-page values
concatenated. -/
theorem valuesFor_eq (c : Option String) (pages : List (List MergeItem)) :
    valuesFor c pages = (pages.map (valuesInItems c)).flatten := by
  induction pages with
  | nil => rfl
  | cons pg rest ih =>
    simp only [valuesFor, valuesInItems, List.map_cons, List.flatten_cons,
      List.filter_append, List.map_append] at ih ⊢
    rw [ih]

/-- The merge loop over single-entry items, characterized through lookups:
starting from collected items `acc` (with `codes` tracking exactly their
codes), folding a page's items applies the per-code merge step to each
observed value in order. -/
theorem mergeFold_lookup : ∀ (items acc : List MergeItem) (codes : List (Option String)),
    (∀ x, x ∈ codes ↔ x ∈ codesOfItems acc) → singleEntryItems items →
    ∀ c, lookupValue ((items.foldl mergeItemsStep (acc, codes)).1) c =
      (valuesInItems c items).foldl keptStep (lookupValue acc c) := by
  intro items
  induction items with
  | nil =>
    intro acc codes _ _ c
    simp [valuesInItems, entriesOf]
  | cons it rest ih =>
    intro acc codes hinv hs c
    obtain ⟨e, hdata⟩ := hs it (List.mem_cons_self it rest)
    have hsrest : singleEntryItems rest := fun x hx => hs x (List.mem_cons_of_mem _ hx)
    have hval : valuesInItems c (it :: rest) =
        (if e.code = c then [e.value] else []) ++ valuesInItems c rest := by
      simp only [valuesInItems, entriesOf, List.map_cons, List.flatten_cons, hdata,
        Option.getD_some, List.filter_append, List.map_append]
      by_cases hc : e.code = c <;> simp [hc]
    rw [List.foldl_cons]
    have hstep : mergeItemsStep (acc, codes) it = processEntries it [e] acc codes := by
      simp [mergeItemsStep, hdata]
    rw [hstep]
    by_cases hm : e.code ∈ codes
    · by_cases hv : isEmptyMerge e.value = true
      · have hpe : processEntries it [e] acc codes = (acc, codes) := by
          simp [processEntries, hm, hv]
        rw [hpe, ih acc codes hinv hsrest c, hval]
        by_cases hc : e.code = c
        · subst hc
          have hlk : lookupValue acc e.code ≠ none :=
            (mem_codes_iff_lookup acc e.code).mp ((hinv e.code).mp hm)
          cases hw : lookupValue acc e.code with
          | none => exact absurd hw hlk
          | some w =>
            have hks : keptStep (some w) e.value = some w := by simp [keptStep, hv]
            simp [hw, hks]
        · simp [hc]
      · have hpe : processEntries it [e] acc codes =
            (updateIfEmpty e.code e.value acc, codes) := by
          simp [processEntries, hm, hv]
        rw [hpe]
        have hinv' : ∀ x, x ∈ codes ↔
            x ∈ codesOfItems (updateIfEmpty e.code e.value acc) := by
          intro x
          rw [codesOfItems_update]
          exact hinv x
        rw [ih _ codes hinv' hsrest c, hval, lookupValue_update]
        by_cases hc : e.code = c
        · subst hc
          have hlk : lookupValue acc e.code ≠ none :=
            (mem_codes_iff_lookup acc e.code).mp ((hinv e.code).mp hm)
          cases hw : lookupValue acc e.code with
          | none => exact absurd hw hlk
          | some w =>
            have hks : keptStep (some w) e.value =
                some (if isEmptyMerge w = true then e.value else w) := by
              by_cases hew : isEmptyMerge w = true <;> simp [keptStep, hew, hv]
            simp only [hw, Option.map_some', List.singleton_append, List.foldl_cons, hks]
            by_cases hew : isEmptyMerge w = true <;> simp [hew, hks]
        · have hc2 : ¬(c = e.code) := fun h => hc h.symm
          simp [hc, hc2, Option.map_id']
    · have hpe : processEntries it [e] acc codes = (acc ++ [it], e.code :: codes) := by
        simp [processEntries, hm]
      have hit : it = (⟨some [e]⟩ : MergeItem) := by
        cases it
        simpa using hdata
      subst hit
      rw [hpe]
      have hcodes : codesOfItems (acc ++ [(⟨some [e]⟩ : MergeItem)]) =
          codesOfItems acc ++ [e.code] := by
        simp [codesOfItems, entriesOf_append, entriesOf]
      have hinv' : ∀ x, x ∈ (e.code :: codes) ↔
          x ∈ codesOfItems (acc ++ [(⟨some [e]⟩ : MergeItem)]) := by
        intro x
        rw [hcodes]
        simp only [List.mem_cons, List.mem_append, List.mem_singleton, hinv x]
        tauto
      rw [ih _ _ hinv' hsrest c, lookupValue_append_single, hval]
      by_cases hc : e.code = c
      · subst hc
        have hlk : lookupValue acc e.code = none := by
          by_contra hh
          exact hm ((hinv _).mpr ((mem_codes_iff_lookup _ _).mpr hh))
        have hks : keptStep none e.value = some e.value := rfl
        simp [hlk, hks]
      · cases hl : lookupValue acc c with
        | none => simp [hl, hc]
        | some w => simp [hl, hc]

/-- One merged page, characterized through lookups. -/
theorem mergePage_lookup (acc items : List MergeItem) (hs : singleEntryItems items)
    (c : Option String) :
    lookupValue (mergePage acc items) c =
      (valuesInItems c items).foldl keptStep (lookupValue acc c) :=
  mergeFold_lookup items acc (codesOfItems acc) (fun _ => Iff.rfl) hs c

/-- A whole page sequence merged in order, characterized through lookups. -/
theorem mergePages_lookup : ∀ (pages : List (List MergeItem)) (acc : List MergeItem),
    (∀ pg ∈ pages, singleEntryItems pg) → ∀ c,
    lookupValue (pages.foldl mergePage acc) c =
      ((pages.map (valuesInItems c)).flatten).foldl keptStep (lookupValue acc c) := by
  intro pages
  induction pages with
  | nil =>
    intro acc _ c
    rfl
  | cons pg rest ih =>
    intro acc h c
    rw [List.foldl_cons,
      ih (mergePage acc pg) (fun x hx => h x (List.mem_cons_of_mem _ hx)) c,
      mergePage_lookup acc pg (h pg (List.mem_cons_self pg rest)) c,
      List.map_cons, List.flatten_cons, List.foldl_append]

/-- C1 (counterexample): two pages for one K-3 range, each a single item
with two data entries.  Page 1 records A = null and B = "3"; page 2's item
carries B = "9" first and A = "7" second.  The merge examines only page 2's
first entry (code B, non-empty, so it updates-and-stops), so the non-empty
later value "7" never overwrites the null first value of A — the merged
record still maps A to null, where the claim promises "7". -/
theorem k3_merge_counterexample :
    ((outRecords (batch_extract
      [ (1, .ok ⟨fun _ => [⟨some [⟨some "A", JVal.null⟩, ⟨some "B", JVal.str "3"⟩]⟩],
          none, none⟩)
      , (2, .ok ⟨fun _ => [⟨some [⟨some "B", JVal.str "9"⟩, ⟨some "A", JVal.str "7"⟩]⟩],
          none, none⟩) ])).map
      (fun o => o.partner_records.map
        (fun r => lookupValue (r.parts "part_i_other_international") (some "A"))) =
      [[some JVal.null]]) ∧
    some JVal.null ≠ some (JVal.str "7") := by
  exact ⟨by decide, by decide⟩

/-- C1 (amended): when every merge item carries exactly one data entry (the
shape of the spec's examples, one box code per item), the merged value of
every box code is the first value seen in page order unless that value is
empty/zero/null, in which case the first later non-empty value overwrites
it; in particular null-then-"5" merges to "5" and "5"-then-"9" merges to
"5".  (With several codes in one item only the item's first entry drives the
merge, and a later non-empty value can fail to overwrite — see the
counterexample.) -/
theorem k3_merge_first_nonempty :
    (∀ (pds : List K3PageData) (k : String), k ∈ partKeys →
      (∀ d ∈ pds, singleEntryItems (d.parts k)) →
      ∀ c, lookupValue (mergeAllParts pds k) c =
        firstNonEmptyKept (valuesFor c (pds.map (fun d => d.parts k)))) ∧
    ((outRecords (batch_extract
      [ (1, .ok ⟨fun _ => [⟨some [⟨some "A", JVal.null⟩]⟩], none, none⟩)
      , (2, .ok ⟨fun _ => [⟨some [⟨some "A", JVal.str "5"⟩]⟩], none, none⟩) ])).map
      (fun o => o.partner_records.map
        (fun r => lookupValue (r.parts "part_i_other_international") (some "A"))) =
      [[some (JVal.str "5")]]) ∧
    ((outRecords (batch_extract
      [ (1, .ok ⟨fun _ => [⟨some [⟨some "A", JVal.str "5"⟩]⟩], none, none⟩)
      , (2, .ok ⟨fun _ => [⟨some [⟨some "A", JVal.str "9"⟩]⟩], none, none⟩) ])).map
      (fun o => o.partner_records.map
        (fun r => lookupValue (r.parts "part_i_other_international") (some "A"))) =
      [[some (JVal.str "5")]]) := by
  refine ⟨?_, by decide, by decide⟩
  intro pds k hk hs c
  rw [mergeAllParts, mergeAllParts_eq pds (fun _ => []) k hk]
  have hsm : ∀ pg ∈ pds.map (fun d => d.parts k), singleEntryItems pg := by
    intro pg hpg
    obtain ⟨d, hd, rfl⟩ := List.mem_map.mp hpg
    exact hs d hd
  rw [mergePages_lookup (pds.map (fun d => d.parts k)) [] hsm c]
  rw [show lookupValue [] c = none from rfl, foldl_keptStep_none, valuesFor_eq]

/-- C1 witness: the merge theorem applied to the concrete two single-entry
pages null-then-"5" at a real part key. -/
theorem k3_merge_first_nonempty_witness :
    lookupValue (mergeAllParts
      [ ⟨fun _ => [⟨some [⟨some "A", JVal.null⟩]⟩], none, none⟩
      , ⟨fun _ => [⟨some [⟨some "A", JVal.str "5"⟩]⟩], none, none⟩ ]
      "part_ii_foreign_tax_credit") (some "A") =
    firstNonEmptyKept (valuesFor (some "A")
      (([ ⟨fun _ => [⟨some [⟨some "A", JVal.null⟩]⟩], none, none⟩
        , ⟨fun _ => [⟨some [⟨some "A", JVal.str "5"⟩]⟩], none, none⟩ ] :
          List K3PageData).map (fun d => d.parts "part_ii_foreign_tax_credit"))) :=
  k3_merge_first_nonempty.1 _ "part_ii_foreign_tax_credit" (by decide)
    (by
      intro d hd
      rcases List.mem_cons.mp hd with h | h
      · subst h
        intro it hit
        rcases List.mem_singleton.mp hit with rfl
        exact ⟨_, rfl⟩
      · rcases List.mem_singleton.mp h with rfl
        intro it hit
        rcases List.mem_singleton.mp hit with rfl
        exact ⟨_, rfl⟩)
    (some "A")

/-- C7 (counterexample): a K-3 range whose every page extraction raised is
still consolidated into a record — `batch_extract` returns no error object
but a record with fabricated default metadata (tax year "2024", empty
partnership fields), a fabricated partner name, and all 13 part lists
empty. -/
theorem k3_all_fail_counterexample :
    isErrorObj (batch_extract [(3, .exn "boom"), (4, .exn "boom")]) = false ∧
    (outRecords (batch_extract [(3, .exn "boom"), (4, .exn "boom")])).map
      (fun o => o.document_metadata) = [defaultK3Meta] ∧
    (outRecords (batch_extract [(3, .exn "boom"), (4, .exn "boom")])).map
      (fun o => o.partner_records.map
        (fun r => (r.partner_name, r.page_reference, partKeys.map r.parts))) =
      [[("Partner (Pages 3-4)", "3-4", List.replicate 13 ([] : List MergeItem))]] := by
  exact ⟨by decide, by decide, by decide⟩

/-- C7 (amended): whenever every page of a K-3 range fails (exception or
error dict), `batch_extract` still returns one consolidated record, never an
error object: the record carries the fabricated default metadata, the
fabricated partner name, and an empty item list at every part key.  Error
objects for a range arise only upstream (no pages detected, or image
conversion failed); each range is extracted by its own `batch_extract` call,
so other ranges are unaffected. -/
theorem k3_all_fail_returns_record :
    ∀ pages : List (Nat × K3PageOutcome),
      (∀ p ∈ pages, isFailedOutcome p.2 = true) →
      isErrorObj (batch_extract pages) = false ∧
      (outRecords (batch_extract pages)).map (fun o => o.document_metadata) =
        [defaultK3Meta] ∧
      (outRecords (batch_extract pages)).map
        (fun o => o.partner_records.map
          (fun r => (r.partner_name, partKeys.map r.parts))) =
        [[(fabricatedName pages, List.replicate 13 ([] : List MergeItem))]] := by
  intro pages h
  have hdp : dataPages pages = [] := by
    rw [dataPages, List.filterMap_eq_nil_iff]
    intro p hp
    specialize h p hp
    cases hout : p.2 <;> simp [hout, isFailedOutcome] at h ⊢
  refine ⟨rfl, ?_, ?_⟩
  · simp [batch_extract, outRecords, hdp, foldDocMeta]
  · simp only [batch_extract, hdp, outRecords, List.map_cons, List.map_nil]
    have h2 : foldPartnerName ([] : List K3PageData) = "" := rfl
    rw [h2, if_pos rfl]
    have h3 : partKeys.map (mergeAllParts ([] : List K3PageData)) =
        List.replicate 13 ([] : List MergeItem) := by decide
    rw [h3]

/-- C7 witness: the all-failures theorem applied to a one-page range whose
extraction returned an error dict. -/
theorem k3_all_fail_returns_record_witness :
    isErrorObj (batch_extract [(2, .errorDict "bad")]) = false ∧
    (outRecords (batch_extract [(2, .errorDict "bad")])).map
      (fun o => o.document_metadata) = [defaultK3Meta] ∧
    (outRecords (batch_extract [(2, .errorDict "bad")])).map
      (fun o => o.partner_records.map
        (fun r => (r.partner_name, partKeys.map r.parts))) =
      [[(fabricatedName [(2, .errorDict "bad")],
          List.replicate 13 ([] : List MergeItem))]] :=
  k3_all_fail_returns_record [(2, .errorDict "bad")]
    (by
      intro p hp
      rcases List.mem_singleton.mp hp with rfl
      rfl)

/-- C6 (counterexample): on a raw object defining none of the canonical
fields, the W-2 normalization fills box "a" (a string field) with the empty
string, not null as the claim states. -/
theorem w2_string_default_counterexample :
    ((transform_to_w2_structure []).find? (fun f => f.code = "a")).map WField.value =
      some (JVal.str "") ∧
    JVal.str "" ≠ JVal.null := by
  exact ⟨by decide, by decide⟩

/-- C6 (amended): for every raw input, the normalized W-2 output contains
exactly the canonical box codes in schema order; a raw object defining none
of them yields every field at its defined default — 0.00 for currency
fields, false for checkboxes, and for string fields the empty string, except
boxes 14, 15, 20, 15b and 20b, which default to null. -/
theorem w2_schema_completeness :
    (∀ flat : List (String × JVal),
      (transform_to_w2_structure flat).map WField.code = w2_codes) ∧
    (transform_to_w2_structure []).map (fun f => (f.code, f.value)) = w2_defaults := by
  exact ⟨fun flat => rfl, by decide⟩

/-- C8 (counterexample): the W-2 normalization's `find_number` strips only
`$` and commas — it has no parenthesis handling — so the parenthesized
string "(123.45)" fails to parse and falls back to the 0.00 default instead
of the negative number -123.45 the claim promises for every form type. -/
theorem w2_paren_number_counterexample :
    find_number [("box_1", JVal.str "(123.45)")] ["box_1", "box1", "wages", "wages_tips"]
      = 0 ∧
    (0 : ℚ) ≠ -123.45 := by
  exact ⟨by decide, by norm_num⟩

/-- C8 (amended): the K-1 normalization's `clean_number` strips `$` and
commas and converts parenthesized values to negatives ("(123.45)" to
-123.45), while the W-2 `find_number` strips `$` and commas but maps a
parenthesized value to its 0.00 default; the checkbox coercions of both
transforms send "yes"/"x"/"checked" (case-insensitively) to true. -/
theorem numeric_cleaning_per_form :
    clean_number (JVal.str "(123.45)") 0 = -123.45 ∧
    clean_number (JVal.str "$1,234.56") 0 = 1234.56 ∧
    find_number [("box_1", JVal.str "$1,234.56")] ["box_1"] = 1234.56 ∧
    find_number [("box_1", JVal.str "(123.45)")] ["box_1"] = 0 ∧
    find_bool [("box_13_statutory", JVal.str "Yes")] ["box_13_statutory"] = true ∧
    find_bool [("box_13_statutory", JVal.str "x")] ["box_13_statutory"] = true ∧
    find_bool [("box_13_statutory", JVal.str "checked")] ["box_13_statutory"] = true ∧
    clean_bool (JVal.str "yes") = true ∧
    clean_bool (JVal.str "X") = true ∧
    clean_bool (JVal.str "checked") = true := by
  refine ⟨?_, ?_, ?_, by decide, by decide, by decide, by decide,
    by decide, by decide, by decide⟩
  · have h : clean_number (JVal.str "(123.45)") 0 =
        (-1 : ℚ) * ((123 : ℚ) + (45 : ℚ) / 10 ^ 2) := rfl
    rw [h]
    norm_num
  · have h : clean_number (JVal.str "$1,234.56") 0 =
        (1 : ℚ) * ((1234 : ℚ) + (56 : ℚ) / 10 ^ 2) := rfl
    rw [h]
    norm_num
  · have h : find_number [("box_1", JVal.str "$1,234.56")] ["box_1"] =
        (1 : ℚ) * ((1234 : ℚ) + (56 : ℚ) / 10 ^ 2) := rfl
    rw [h]
    norm_num
